import Mathlib

/-!
Verification of the redirect-mapper core (src/app.py) against its
specification.  The network, the HTML parser and the inference service are
external collaborators; they are modelled as oracles (functions supplied as
parameters), and the control flow of the source functions
fetch_page_content, crawl_urls, match_urls and the summary statistics is
embedded faithfully.
-/

namespace RedirectMapper

/-- Crawl status of one URL, as stored in the `status` field of the result
dictionary of fetch_page_content. -/
inductive Status where
  | success
  | failed
  | auth_required
deriving DecidableEq, Repr

/-- The result dictionary built by fetch_page_content:
url, title, heading, description, content, status, error. -/
structure ContentSignal where
  url : String
  title : String
  heading : String
  description : String
  content : String
  status : Status
  error : Option String
deriving DecidableEq, Repr

/-- Optional username/password pair used for HTTP basic authentication. -/
structure Credentials where
  username : String
  password : String
deriving DecidableEq, Repr

/-- What the HTML parser extracts from a successfully fetched page:
the optional title element text, the optional first h1 text, the optional
description meta content, and the paragraph texts, all as returned by
BeautifulSoup before stripping. -/
structure Page where
  title : Option String
  h1 : Option String
  metaDescription : Option String
  paragraphs : List String
deriving DecidableEq, Repr

/-- Outcome of a single requests.get attempt, as observed by the
try/except blocks of fetch_page_content: a parsed page, a timeout
exception, an HTTPError carrying a status code, or any other exception
carrying its message. -/
inductive AttemptOutcome where
  | success (page : Page)
  | timeout
  | httpError (code : Nat)
  | otherError (msg : String)
deriving DecidableEq, Repr

/-- Return value of the embedded fetch_page_content together with its
observable effects: the result dictionary, the number of requests.get
attempts performed, and the list of time.sleep durations in order. -/
structure FetchTrace where
  signal : ContentSignal
  attempts : Nat
  sleeps : List Nat
deriving DecidableEq, Repr

/-- The fixed user-agent pool of fetch_page_content; attempt k uses entry
k mod 3. -/
def user_agents : List String :=
  ["Mozilla/5.0 (Windows NT 10.0; Win64; x64) AppleWebKit/537.36",
   "Mozilla/5.0 (Macintosh; Intel Mac OS X 10_15_7) AppleWebKit/537.36",
   "Mozilla/5.0 (X11; Linux x86_64) AppleWebKit/537.36"]

/-- The extraction performed on a successful response: title text stripped
(empty if absent), h1 text stripped (empty if absent), meta description
content stripped (empty if absent), and the content preview formed by
joining the first three paragraph texts with a space and truncating to 500
characters. -/
def extract_signal (url : String) (page : Page) : ContentSignal :=
  ⟨url,
   ((page.title).map String.trim).getD "",
   ((page.h1).map String.trim).getD "",
   ((page.metaDescription).map String.trim).getD "",
   (String.intercalate " " ((page.paragraphs.take 3).map String.trim)).take 500,
   Status.success,
   none⟩

/-- Embedding of fetch_page_content.  The network is the oracle net, giving
the outcome of the attempt with a given retry_count; url, retry_count,
max_retries and credentials are the source parameters (the source defaults
are retry_count = 0, max_retries = 3, credentials = none).  Timeouts retry
after sleeping 2 ^ retry_count while retry_count < max_retries; HTTP 401
and 403 return auth_required immediately; HTTP 429/500/502/503/504 retry
after sleeping 3 ^ retry_count while retry_count < max_retries; any other
exception returns failed with the message truncated to 100 characters. -/
def fetch_page_content (net : Nat → AttemptOutcome) (url : String)
    (retry_count : Nat) (max_retries : Nat) (credentials : Option Credentials) :
    FetchTrace :=
  match net retry_count with
  | AttemptOutcome.success page =>
      ⟨extract_signal url page, 1, []⟩
  | AttemptOutcome.timeout =>
      if h : retry_count < max_retries then
        let rest := fetch_page_content net url (retry_count + 1) max_retries credentials
        ⟨rest.signal, rest.attempts + 1, 2 ^ retry_count :: rest.sleeps⟩
      else
        ⟨⟨url, "", "", "", "", Status.failed, some "Timeout"⟩, 1, []⟩
  | AttemptOutcome.httpError code =>
      if code ∈ [401, 403] then
        ⟨⟨url, "", "", "", "", Status.auth_required,
          some ("Authentication required (HTTP " ++ toString code ++ ")")⟩, 1, []⟩
      else if h : retry_count < max_retries ∧ code ∈ [429, 500, 502, 503, 504] then
        let rest := fetch_page_content net url (retry_count + 1) max_retries credentials
        ⟨rest.signal, rest.attempts + 1, 3 ^ retry_count :: rest.sleeps⟩
      else
        ⟨⟨url, "", "", "", "", Status.failed,
          some ("HTTP " ++ toString code)⟩, 1, []⟩
  | AttemptOutcome.otherError msg =>
      ⟨⟨url, "", "", "", "", Status.failed, some (msg.take 100)⟩, 1, []⟩
termination_by max_retries - retry_count
decreasing_by
  · omega
  · omega

/-- The url field of the returned signal is always the requested URL. -/
theorem fetch_url_eq (net : Nat → AttemptOutcome) (url : String)
    (retry_count max_retries : Nat) (credentials : Option Credentials) :
    (fetch_page_content net url retry_count max_retries credentials).signal.url = url := by
  induction retry_count, max_retries, credentials
    using fetch_page_content.induct net url with
  | case1 rc mr creds page hne =>
      rw [fetch_page_content, hne]
      simp [extract_signal]
  | case2 rc mr creds hne h ih =>
      rw [fetch_page_content, hne]
      simp [h, ih]
  | case3 rc mr creds hne h =>
      rw [fetch_page_content, hne]
      simp [h]
  | case4 rc mr creds code hne hc =>
      rw [fetch_page_content, hne]
      simp [hc]
  | case5 rc mr creds code hne hc h ih =>
      rw [fetch_page_content, hne]
      simp [hc, h, ih]
  | case6 rc mr creds code hne hc h =>
      rw [fetch_page_content, hne]
      simp only [List.mem_cons, List.not_mem_nil, or_false] at hc h
      simp [hc, h]
  | case7 rc mr creds msg hne =>
      rw [fetch_page_content, hne]

/-- The status is success exactly when the error field is none. -/
theorem fetch_status_iff_error (net : Nat → AttemptOutcome) (url : String)
    (retry_count max_retries : Nat) (credentials : Option Credentials) :
    ((fetch_page_content net url retry_count max_retries credentials).signal.status
        = Status.success ↔
      (fetch_page_content net url retry_count max_retries credentials).signal.error
        = none) := by
  induction retry_count, max_retries, credentials
    using fetch_page_content.induct net url with
  | case1 rc mr creds page hne =>
      rw [fetch_page_content, hne]
      simp [extract_signal]
  | case2 rc mr creds hne h ih =>
      rw [fetch_page_content, hne]
      simpa [h] using ih
  | case3 rc mr creds hne h =>
      rw [fetch_page_content, hne]
      simp [h]
  | case4 rc mr creds code hne hc =>
      rw [fetch_page_content, hne]
      simp [hc]
  | case5 rc mr creds code hne hc h ih =>
      rw [fetch_page_content, hne]
      simpa [hc, h] using ih
  | case6 rc mr creds code hne hc h =>
      rw [fetch_page_content, hne]
      simp only [List.mem_cons, List.not_mem_nil, or_false] at hc h
      simp [hc, h]
  | case7 rc mr creds msg hne =>
      rw [fetch_page_content, hne]
      simp


/-- C3: fetch never throws — every failure mode is represented in the
returned status/error fields (status is success exactly when error is
none), and when the attempt raises an exception other than a timeout or an
HTTPError, the result has status failed with error equal to the exception
message truncated to its first 100 characters. -/
theorem c3_fetch_never_throws (net : Nat → AttemptOutcome) (url : String)
    (max_retries : Nat) (credentials : Option Credentials) :
    ((fetch_page_content net url 0 max_retries credentials).signal.status
        = Status.success ↔
      (fetch_page_content net url 0 max_retries credentials).signal.error = none) ∧
    (∀ msg, net 0 = AttemptOutcome.otherError msg →
      (fetch_page_content net url 0 max_retries credentials).signal =
        ⟨url, "", "", "", "", Status.failed, some (msg.take 100)⟩) := by
  refine ⟨fetch_status_iff_error net url 0 max_retries credentials, ?_⟩
  intro msg hmsg
  rw [fetch_page_content, hmsg]

/-- Witness for C3 at a concrete oracle that raises a ValueError-like
exception with message "boom" on the first attempt. -/
theorem c3_witness :
    (((fetch_page_content (fun _ : Nat => AttemptOutcome.otherError "boom") "u" 0 3
          none).signal.status = Status.success ↔
      (fetch_page_content (fun _ : Nat => AttemptOutcome.otherError "boom") "u" 0 3
          none).signal.error = none)) ∧
    (fetch_page_content (fun _ : Nat => AttemptOutcome.otherError "boom") "u" 0 3
        none).signal =
      ⟨"u", "", "", "", "", Status.failed, some ("boom".take 100)⟩ :=
  ⟨(c3_fetch_never_throws (fun _ : Nat => AttemptOutcome.otherError "boom") "u" 3 none).1,
   (c3_fetch_never_throws (fun _ : Nat => AttemptOutcome.otherError "boom") "u" 3 none).2
     "boom" rfl⟩

/-- C4: with the default max_retries = 3, a fetch whose every attempt times
out makes exactly 4 attempts, sleeps 2 ^ 0, 2 ^ 1, 2 ^ 2 time units before
the successive retries, and returns status failed with error "Timeout". -/
theorem c4_timeout_exhausts_retries (net : Nat → AttemptOutcome) (url : String)
    (credentials : Option Credentials) (h : ∀ k, net k = AttemptOutcome.timeout) :
    fetch_page_content net url 0 3 credentials =
      ⟨⟨url, "", "", "", "", Status.failed, some "Timeout"⟩, 4, [2 ^ 0, 2 ^ 1, 2 ^ 2]⟩ := by
  rw [fetch_page_content, h 0]
  rw [fetch_page_content, h 1]
  rw [fetch_page_content, h 2]
  rw [fetch_page_content, h 3]
  norm_num

/-- Witness for C4 at the oracle that times out on every attempt. -/
theorem c4_witness :
    (∀ k, (fun _ : Nat => AttemptOutcome.timeout) k = AttemptOutcome.timeout) ∧
    fetch_page_content (fun _ : Nat => AttemptOutcome.timeout) "u" 0 3 none =
      ⟨⟨"u", "", "", "", "", Status.failed, some "Timeout"⟩, 4, [2 ^ 0, 2 ^ 1, 2 ^ 2]⟩ :=
  ⟨fun _ => rfl,
   c4_timeout_exhausts_retries (fun _ : Nat => AttemptOutcome.timeout) "u" none fun _ => rfl⟩

/-- C5: a fetch whose first attempt yields HTTP 401 or 403 returns
auth_required immediately, with exactly one attempt and no sleeps,
whatever retry budget max_retries remains. -/
theorem c5_auth_required_terminal (net : Nat → AttemptOutcome) (url : String)
    (max_retries : Nat) (credentials : Option Credentials) (code : Nat)
    (h0 : net 0 = AttemptOutcome.httpError code) (hc : code ∈ [401, 403]) :
    fetch_page_content net url 0 max_retries credentials =
      ⟨⟨url, "", "", "", "", Status.auth_required,
        some ("Authentication required (HTTP " ++ toString code ++ ")")⟩, 1, []⟩ := by
  rw [fetch_page_content, h0]
  simp [hc]

/-- Witness for C5 at the oracle that answers HTTP 403 on the first attempt,
with a large retry budget remaining. -/
theorem c5_witness :
    ((fun _ : Nat => AttemptOutcome.httpError 403) 0 = AttemptOutcome.httpError 403) ∧
    (403 ∈ [401, 403]) ∧
    fetch_page_content (fun _ : Nat => AttemptOutcome.httpError 403) "u" 0 7 none =
      ⟨⟨"u", "", "", "", "", Status.auth_required,
        some ("Authentication required (HTTP " ++ toString 403 ++ ")")⟩, 1, []⟩ :=
  ⟨rfl, by decide,
   c5_auth_required_terminal (fun _ : Nat => AttemptOutcome.httpError 403) "u" 7 none 403
     rfl (by decide)⟩

/-- Embedding of crawl_urls: for each URL in input order, invoke the
fetcher with retry_count 0, max_retries 3 and the shared credentials,
collect the returned signal, and additionally collect the URL itself when
its status is auth_required.  The progress bar and status text collaborators
are observational only and the 1.0 second politeness sleep has no effect on
the returned value, so neither appears in the embedding. -/
def crawl_urls (net : String → Nat → AttemptOutcome)
    (credentials : Option Credentials) :
    List String → List ContentSignal × List String
  | [] => ([], [])
  | url :: rest =>
      let content := (fetch_page_content (net url) url 0 3 credentials).signal
      let tail := crawl_urls net credentials rest
      (content :: tail.1,
       if content.status = Status.auth_required then url :: tail.2 else tail.2)

/-- C2: crawl_urls returns one result per input URL, the i-th result
carries the i-th input URL (input order preserved), and the auth-required
list is exactly the input-order sublist of URLs whose fetch result has
status auth_required. -/
theorem c2_crawl_order_and_auth (net : String → Nat → AttemptOutcome)
    (credentials : Option Credentials) (urls : List String) :
    (crawl_urls net credentials urls).1.length = urls.length ∧
    (∀ i : Nat,
      ((crawl_urls net credentials urls).1[i]?).map ContentSignal.url = urls[i]?) ∧
    (crawl_urls net credentials urls).2 =
      urls.filter (fun url =>
        decide ((fetch_page_content (net url) url 0 3 credentials).signal.status
          = Status.auth_required)) := by
  induction urls with
  | nil => refine ⟨rfl, ?_, rfl⟩; intro i; cases i <;> rfl
  | cons url rest ih =>
      obtain ⟨ih1, ih2, ih3⟩ := ih
      refine ⟨?_, ?_, ?_⟩
      · simpa [crawl_urls] using ih1
      · intro i
        cases i with
        | zero => simp [crawl_urls, fetch_url_eq]
        | succ j => simpa [crawl_urls] using ih2 j
      · by_cases hs :
          (fetch_page_content (net url) url 0 3 credentials).signal.status
            = Status.auth_required
        · simpa [crawl_urls, hs] using ih3
        · simpa [crawl_urls, hs] using ih3


/-- A match record parsed from the inference response:
oldUrl, newUrl, confidence, reason.  JSON numbers are modelled as
rationals. -/
structure MatchRecord where
  oldUrl : String
  newUrl : String
  confidence : ℚ
  reason : String
deriving DecidableEq, Repr

/-- One entry of a matching request: a bare URL dictionary in URL-only
mode, or a full crawl-result dictionary in crawled mode. -/
inductive ReqEntry where
  | bare (url : String)
  | block (signal : ContentSignal)
deriving DecidableEq, Repr

/-- The structured content of one matching request sent to the inference
collaborator: the old-side entries of this batch and the new-side entries
(the full new pool, not batched). -/
structure MatchRequest where
  oldEntries : List ReqEntry
  newEntries : List ReqEntry
deriving DecidableEq, Repr

/-- The two inputs of match_urls at its call sites: the raw URL lists when
crawling is disabled, or the crawl result lists when it is enabled.  The
crawled flag of the source always agrees with which shape is passed. -/
inductive MatchSource where
  | urlsOnly (old_urls new_urls : List String)
  | crawledData (old_results new_results : List ContentSignal)
deriving DecidableEq, Repr

/-- Length of the old-side input of a MatchSource, before any filtering. -/
def MatchSource.oldInputLength : MatchSource → Nat
  | MatchSource.urlsOnly old _ => old.length
  | MatchSource.crawledData old _ => old.length

/-- Stripping of Markdown code fences from the raw response text before
JSON parsing, exactly as in the source. -/
def clean_response (s : String) : String :=
  ((s.replace "```json" "").replace "```" "").trim

/-- Batch size policy of match_urls: 100 when the model name contains
"flash", else 50. -/
def model_batch_size (model_name : String) : Nat :=
  if "flash".toList <:+: model_name.toList then 100 else 50

/-- The preprocessed old-side data of match_urls: bare URL dictionaries in
URL-only mode; in crawled mode only the results whose status is success. -/
def old_entries : MatchSource → List ReqEntry
  | MatchSource.urlsOnly old _ => old.map ReqEntry.bare
  | MatchSource.crawledData old _ =>
      (old.filter (fun s => s.status == Status.success)).map ReqEntry.block

/-- The new-side entries rendered into every request: all bare URLs in
URL-only mode; in crawled mode only the results whose status is success. -/
def new_entries : MatchSource → List ReqEntry
  | MatchSource.urlsOnly _ new => new.map ReqEntry.bare
  | MatchSource.crawledData _ new =>
      (new.filter (fun s => s.status == Status.success)).map ReqEntry.block

/-- total_batches of match_urls: ceiling division of the preprocessed
old-side length by the batch size, computed as in the source. -/
def match_total_batches (model_name : String) (source : MatchSource) : Nat :=
  ((old_entries source).length + model_batch_size model_name - 1)
    / model_batch_size model_name

/-- The request constructed for batch i: the i-th contiguous slice of the
preprocessed old data, against the full new-side pool. -/
def batch_request (model_name : String) (source : MatchSource) (i : Nat) :
    MatchRequest :=
  ⟨((old_entries source).drop (i * model_batch_size model_name)).take
      (model_batch_size model_name),
   new_entries source⟩

/-- The error message reported for a failed batch, as in the source. -/
def batch_error_message (batch_num : Nat) (e : String) : String :=
  "Error in batch " ++ toString (batch_num + 1) ++ ": " ++ e

/-- Accumulated outcome of match_urls: the match records, the requests
constructed (one per batch attempted, hence also the number of inference
invocations), and the error messages reported. -/
structure MatchOutcome where
  all_matches : List MatchRecord
  requests : List MatchRequest
  errors : List String
deriving DecidableEq, Repr

/-- The per-batch loop of match_urls over a list of batch indices.  The
inference collaborator is the oracle generate (invocation either raises or
returns the raw response text for that call); JSON parsing is the oracle
parse_matches (either raises or returns the array).  On either failure the
error is reported and the loop continues with the next batch; on success
the parsed records are appended. -/
def run_batches (generate : Nat → Except String String)
    (parse_matches : String → Except String (List MatchRecord))
    (mk_request : Nat → MatchRequest) : List Nat → MatchOutcome
  | [] => ⟨[], [], []⟩
  | i :: rest =>
      let request := mk_request i
      let tail := run_batches generate parse_matches mk_request rest
      match generate i with
      | Except.error e =>
          ⟨tail.all_matches, request :: tail.requests,
           batch_error_message i e :: tail.errors⟩
      | Except.ok text =>
          match parse_matches (clean_response text) with
          | Except.error e =>
              ⟨tail.all_matches, request :: tail.requests,
               batch_error_message i e :: tail.errors⟩
          | Except.ok batch_matches =>
              ⟨batch_matches ++ tail.all_matches, request :: tail.requests,
               tail.errors⟩

/-- Embedding of match_urls: preprocess the two sides according to the
mode, partition the old side into batches of model_batch_size, and run the
per-batch loop over batches 0, 1, ..., total_batches - 1 in order.  The
progress collaborators and the 1.5 second throttling sleep are
observational only and do not appear. -/
def match_urls (generate : Nat → Except String String)
    (parse_matches : String → Except String (List MatchRecord))
    (model_name : String) (source : MatchSource) : MatchOutcome :=
  run_batches generate parse_matches (batch_request model_name source)
    (List.range (match_total_batches model_name source))

/-- The records delivered by a single batch: the parsed array when both
the invocation and the parse succeed, nothing otherwise. -/
def batch_delivery (generate : Nat → Except String String)
    (parse_matches : String → Except String (List MatchRecord)) (i : Nat) :
    List MatchRecord :=
  match generate i with
  | Except.error _ => []
  | Except.ok text =>
      match parse_matches (clean_response text) with
      | Except.error _ => []
      | Except.ok batch_matches => batch_matches

/-- The accumulated matches of the loop are the concatenation of the deliveries of the
batches, in order. -/
theorem run_batches_matches (generate : Nat → Except String String)
    (parse_matches : String → Except String (List MatchRecord))
    (mk_request : Nat → MatchRequest) (l : List Nat) :
    (run_batches generate parse_matches mk_request l).all_matches
      = (l.map (batch_delivery generate parse_matches)).flatten := by
  induction l with
  | nil => rfl
  | cons i rest ih =>
      rw [run_batches]
      cases hg : generate i with
      | error e => simp [batch_delivery, hg, ih]
      | ok text =>
          cases hp : parse_matches (clean_response text) with
          | error e => simp [batch_delivery, hg, hp, ih]
          | ok ms => simp [batch_delivery, hg, hp, ih]

/-- The loop constructs one request per batch index, in order. -/
theorem run_batches_requests (generate : Nat → Except String String)
    (parse_matches : String → Except String (List MatchRecord))
    (mk_request : Nat → MatchRequest) (l : List Nat) :
    (run_batches generate parse_matches mk_request l).requests
      = l.map mk_request := by
  induction l with
  | nil => rfl
  | cons i rest ih =>
      rw [run_batches]
      cases hg : generate i with
      | error e => simp [hg, ih]
      | ok text =>
          cases hp : parse_matches (clean_response text) with
          | error e => simp [hg, hp, ih]
          | ok ms => simp [hg, hp, ih]


/-- The batch partition used by match_urls, generalized over the element
type and the batch size: batch i is the slice from i * batch_size of
length at most batch_size, and the number of batches is
(length + batch_size - 1) / batch_size as computed in the source. -/
def partition_batches {α : Type} (items : List α) (batch_size : Nat) :
    List (List α) :=
  (List.range ((items.length + batch_size - 1) / batch_size)).map
    (fun i => (items.drop (i * batch_size)).take batch_size)

/-- The ceiling division (m + n - 1) / n is the least k with m ≤ k * n. -/
theorem ceil_div_le_iff (n m k : Nat) (hn : 0 < n) :
    (m + n - 1) / n ≤ k ↔ m ≤ k * n := by
  constructor
  · intro h
    by_contra hmk
    push_neg at hmk
    have h2 : (k + 1) * n ≤ m + n - 1 := by
      have he : (k + 1) * n = k * n + n := by ring
      omega
    have h3 := (Nat.le_div_iff_mul_le hn).mpr h2
    omega
  · intro h
    have h2 : m + n - 1 < (k + 1) * n := by
      have he : (k + 1) * n = k * n + n := by ring
      omega
    have h3 := (Nat.div_lt_iff_lt_mul hn).mpr h2
    omega

/-- Nonempty lists split as first batch then the partition of the rest. -/
theorem partition_batches_cons {α : Type} (items : List α) (n : Nat)
    (hn : 0 < n) (hne : items ≠ []) :
    partition_batches items n
      = items.take n :: partition_batches (items.drop n) n := by
  have hm : 0 < items.length := List.length_pos.mpr hne
  unfold partition_batches
  have h1 : items.length + n - 1 = (items.length - 1) + n := by omega
  have h2 : (items.drop n).length = items.length - n := List.length_drop n items
  have h3 : ((items.drop n).length + n - 1) / n = (items.length - 1) / n := by
    rw [h2]
    rcases le_or_lt n items.length with hge | hlt
    · have : items.length - n + n - 1 = items.length - 1 := by omega
      rw [this]
    · have ha : items.length - n = 0 := by omega
      rw [ha]
      have hb : 0 + n - 1 < n := by omega
      have hcv : items.length - 1 < n := by omega
      rw [Nat.div_eq_of_lt hb, Nat.div_eq_of_lt hcv]
  rw [h1, Nat.add_div_right _ hn, h3, List.range_succ_eq_map]
  simp only [List.map_cons, List.map_map]
  congr 1
  · simp
  · apply List.map_congr_left
    intro i _
    simp only [Function.comp]
    rw [List.drop_drop]
    congr 1
    rw [Nat.succ_mul]
    congr 1
    exact Nat.add_comm (i * n) n

/-- Concatenating the batches in order restores the original list. -/
theorem partition_batches_flatten {α : Type} (n : Nat) (hn : 0 < n) :
    ∀ (fuel : Nat) (items : List α), items.length ≤ fuel →
      (partition_batches items n).flatten = items := by
  intro fuel
  induction fuel with
  | zero =>
      intro items h
      have : items = [] := List.length_eq_zero.mp (Nat.le_zero.mp h)
      subst this
      simp [partition_batches, Nat.div_eq_of_lt (show 0 + n - 1 < n by omega)]
  | succ fuel ih =>
      intro items h
      rcases eq_or_ne items [] with hnil | hne
      · subst hnil
        simp [partition_batches, Nat.div_eq_of_lt (show 0 + n - 1 < n by omega)]
      · rw [partition_batches_cons items n hn hne]
        rw [List.flatten_cons]
        have hlen : (items.drop n).length ≤ fuel := by
          have := List.length_drop n items
          have hm : 0 < items.length := List.length_pos.mpr hne
          omega
        rw [ih (items.drop n) hlen, List.take_append_drop]

/-- C6: for every list of m items and positive batch size n, the partition
has (m + n - 1) / n batches — the least k with m ≤ k * n, i.e. the ceiling
of m / n — every batch except possibly the last has size exactly n, every
batch is nonempty of size at most n, and concatenating the batches in
order restores the original list. -/
theorem c6_partition_batches (α : Type) (items : List α) (n : Nat) (hn : 0 < n) :
    (partition_batches items n).length = (items.length + n - 1) / n ∧
    (∀ k : Nat, (partition_batches items n).length ≤ k ↔ items.length ≤ k * n) ∧
    (∀ i : Nat, i + 1 < (partition_batches items n).length →
      ((partition_batches items n)[i]?).map List.length = some n) ∧
    (∀ b ∈ partition_batches items n, 0 < b.length ∧ b.length ≤ n) ∧
    (partition_batches items n).flatten = items := by
  have hcount : (partition_batches items n).length = (items.length + n - 1) / n := by
    simp [partition_batches]
  refine ⟨hcount, ?_, ?_, ?_, ?_⟩
  · intro k
    rw [hcount]
    exact ceil_div_le_iff n items.length k hn
  · intro i hi
    rw [hcount] at hi
    have hlt : i < (items.length + n - 1) / n := by omega
    have hmem : items.length > (i + 1) * n := by
      by_contra hle
      push_neg at hle
      have := (ceil_div_le_iff n items.length (i + 1) hn).mpr hle
      omega
    have hlen : ((items.drop (i * n)).take n).length = n := by
      rw [List.length_take, List.length_drop]
      have : (i + 1) * n = i * n + n := by ring
      omega
    simp [partition_batches, List.getElem?_range hlt, hlen]
  · intro b hb
    simp only [partition_batches, List.mem_map, List.mem_range] at hb
    obtain ⟨i, hi, rfl⟩ := hb
    rw [hcount.symm] at hi
    have hmem : items.length > i * n := by
      by_contra hle
      push_neg at hle
      have := (ceil_div_le_iff n items.length i hn).mpr hle
      rw [hcount.symm] at this
      omega
    rw [List.length_take, List.length_drop]
    omega
  · exact partition_batches_flatten n hn items.length items (Nat.le_refl _)

/-- Witness for C6 at a concrete list of five items and batch size two. -/
theorem c6_witness :
    (partition_batches ([10, 11, 12, 13, 14] : List Nat) 2).flatten
        = [10, 11, 12, 13, 14] ∧
    (partition_batches ([10, 11, 12, 13, 14] : List Nat) 2).length = 3 :=
  ⟨(c6_partition_batches Nat [10, 11, 12, 13, 14] 2 (by norm_num)).2.2.2.2,
   (c6_partition_batches Nat [10, 11, 12, 13, 14] 2 (by norm_num)).1⟩


/-- C1: a bad batch never aborts the run.  If batch k fails (the invocation
raises, or the cleaned response fails to parse) while batch k + 1 yields a
valid match array ms, then match_urls still returns (it is a total
function of its oracles) and every record of ms is in the returned list. -/
theorem c1_bad_batch_not_fatal (generate : Nat → Except String String)
    (parse_matches : String → Except String (List MatchRecord))
    (model_name : String) (source : MatchSource) (k : Nat) (text : String)
    (ms : List MatchRecord)
    (_hfail : (∃ e, generate k = Except.error e) ∨
      (∃ t e, generate k = Except.ok t ∧
        parse_matches (clean_response t) = Except.error e))
    (hok : generate (k + 1) = Except.ok text)
    (hparse : parse_matches (clean_response text) = Except.ok ms)
    (hlt : k + 1 < match_total_batches model_name source) :
    ∀ m ∈ ms,
      m ∈ (match_urls generate parse_matches model_name source).all_matches := by
  intro m hm
  rw [match_urls, run_batches_matches]
  refine List.mem_flatten.mpr
    ⟨batch_delivery generate parse_matches (k + 1), ?_, ?_⟩
  · exact List.mem_map_of_mem _ (List.mem_range.mpr hlt)
  · simp only [batch_delivery, hok, hparse]
    exact hm

/-- A two-batch run in which the first invocation raises. -/
def c1_generate_example : Nat → Except String String :=
  fun i => if i = 0 then Except.error "invocation failed" else Except.ok "[]"

/-- A parse oracle returning one fixed record for any text. -/
def c1_parse_example : String → Except String (List MatchRecord) :=
  fun _ => Except.ok [⟨"https-old-a", "https-new-a", 1, "slug match"⟩]

/-- Witness for C1: with 51 old URLs (two batches of size 50), batch 0
raising and batch 1 parsing to one record, that record is returned. -/
theorem c1_witness :
    (⟨"https-old-a", "https-new-a", 1, "slug match"⟩ : MatchRecord) ∈
      (match_urls c1_generate_example c1_parse_example "m"
        (MatchSource.urlsOnly (List.replicate 51 "u") ["v"])).all_matches :=
  c1_bad_batch_not_fatal c1_generate_example c1_parse_example "m"
    (MatchSource.urlsOnly (List.replicate 51 "u") ["v"]) 0 "[]"
    [⟨"https-old-a", "https-new-a", 1, "slug match"⟩]
    (Or.inl ⟨"invocation failed", rfl⟩) rfl rfl (by decide)
    ⟨"https-old-a", "https-new-a", 1, "slug match"⟩ (by simp)

/-- The batch size is positive for every model name. -/
theorem model_batch_size_pos (model_name : String) :
    0 < model_batch_size model_name := by
  rw [model_batch_size]
  split <;> norm_num

/-- C8: in crawled mode, every constructed request carries on its new side
exactly the new-side results with status success, every old-side entry of
every request is a success-status crawl result, and the old sides of the
requests concatenate to exactly the success-status old results — failed
and auth_required items appear in no request payload. -/
theorem c8_crawled_mode_success_only (generate : Nat → Except String String)
    (parse_matches : String → Except String (List MatchRecord))
    (model_name : String) (old_results new_results : List ContentSignal) :
    (∀ req ∈ (match_urls generate parse_matches model_name
        (MatchSource.crawledData old_results new_results)).requests,
      req.newEntries =
        (new_results.filter (fun s => s.status == Status.success)).map
          ReqEntry.block ∧
      (∀ e ∈ req.oldEntries,
        ∃ sig, e = ReqEntry.block sig ∧ sig.status = Status.success)) ∧
    ((match_urls generate parse_matches model_name
        (MatchSource.crawledData old_results new_results)).requests.map
          MatchRequest.oldEntries).flatten =
      (old_results.filter (fun s => s.status == Status.success)).map
        ReqEntry.block := by
  have hreq : (match_urls generate parse_matches model_name
      (MatchSource.crawledData old_results new_results)).requests =
      (List.range (match_total_batches model_name
        (MatchSource.crawledData old_results new_results))).map
        (batch_request model_name
          (MatchSource.crawledData old_results new_results)) :=
    run_batches_requests generate parse_matches _ _
  constructor
  · intro req hmem
    rw [hreq] at hmem
    obtain ⟨i, _, rfl⟩ := List.mem_map.mp hmem
    refine ⟨rfl, ?_⟩
    intro e he
    have he2 : e ∈ old_entries (MatchSource.crawledData old_results new_results) := by
      have h3 := List.mem_of_mem_take he
      exact List.mem_of_mem_drop h3
    rw [old_entries] at he2
    obtain ⟨sig, hsig, rfl⟩ := List.mem_map.mp he2
    refine ⟨sig, rfl, ?_⟩
    have := List.of_mem_filter hsig
    exact beq_iff_eq.mp this
  · rw [hreq, List.map_map]
    have hmap : (MatchRequest.oldEntries ∘ batch_request model_name
        (MatchSource.crawledData old_results new_results)) =
        fun i =>
          ((old_entries (MatchSource.crawledData old_results new_results)).drop
            (i * model_batch_size model_name)).take
            (model_batch_size model_name) := rfl
    rw [hmap]
    have hpart : (List.range (match_total_batches model_name
        (MatchSource.crawledData old_results new_results))).map
        (fun i =>
          ((old_entries (MatchSource.crawledData old_results new_results)).drop
            (i * model_batch_size model_name)).take
            (model_batch_size model_name)) =
        partition_batches
          (old_entries (MatchSource.crawledData old_results new_results))
          (model_batch_size model_name) := rfl
    rw [hpart,
      partition_batches_flatten (model_batch_size model_name)
        (model_batch_size_pos model_name) _ _ (Nat.le_refl _)]
    rfl

/-- C10: with an empty old-side input the preprocessed old data is empty,
zero batches are constructed, the inference collaborator is never invoked
(no requests), and the returned match list is empty — for every new-side
input, mode and model name. -/
theorem c10_empty_old_side (generate : Nat → Except String String)
    (parse_matches : String → Except String (List MatchRecord))
    (model_name : String) (source : MatchSource)
    (h : source.oldInputLength = 0) :
    match_urls generate parse_matches model_name source = ⟨[], [], []⟩ := by
  have hold : old_entries source = [] := by
    cases source with
    | urlsOnly old new =>
        rw [MatchSource.oldInputLength] at h
        rw [old_entries, List.length_eq_zero.mp h]
        rfl
    | crawledData old new =>
        rw [MatchSource.oldInputLength] at h
        rw [old_entries, List.length_eq_zero.mp h]
        rfl
  have htot : match_total_batches model_name source = 0 := by
    rw [match_total_batches, hold]
    exact Nat.div_eq_of_lt
      (by have := model_batch_size_pos model_name; simp; omega)
  rw [match_urls, htot]
  rfl

/-- Witness for C10 with an empty old URL list and a nonempty new list. -/
theorem c10_witness :
    match_urls (fun _ => Except.error "e") (fun _ => Except.ok [])
      "m" (MatchSource.urlsOnly [] ["v"]) = ⟨[], [], []⟩ :=
  c10_empty_old_side (fun _ => Except.error "e") (fun _ => Except.ok [])
    "m" (MatchSource.urlsOnly [] ["v"]) rfl


/-- The summary statistics displayed for a match list: total, and the
high / medium / low confidence band counts. -/
structure MatchSummary where
  total : Nat
  high_conf : Nat
  medium_conf : Nat
  low_conf : Nat
deriving DecidableEq, Repr

/-- Embedding of the summary computation: total is the number of matches,
high counts confidence ≥ 0.8, medium counts 0.6 ≤ confidence < 0.8, low
counts confidence < 0.6, exactly as in the source. -/
def summarize (ms : List MatchRecord) : MatchSummary :=
  ⟨ms.length,
   ms.countP (fun m => decide (m.confidence ≥ 0.8)),
   ms.countP (fun m => decide (0.6 ≤ m.confidence ∧ m.confidence < 0.8)),
   ms.countP (fun m => decide (m.confidence < 0.6))⟩

/-- Each confidence value falls in exactly one band. -/
theorem band_indicator (c : ℚ) :
    ((if c ≥ 0.8 then 1 else 0) : Nat)
      + (if 0.6 ≤ c ∧ c < 0.8 then 1 else 0)
      + (if c < 0.6 then 1 else 0) = 1 := by
  rcases lt_or_le c 0.6 with h | h
  · rw [if_neg (by intro hge; linarith),
      if_neg (by rintro ⟨h1, h2⟩; linarith), if_pos h]
  · rcases lt_or_le c 0.8 with h2 | h2
    · rw [if_neg (by intro hge; linarith), if_pos ⟨h, h2⟩,
        if_neg (by linarith)]
    · rw [if_pos (by linarith), if_neg (by rintro ⟨h3, h4⟩; linarith),
        if_neg (by linarith)]

/-- The three band counts always partition the total. -/
theorem summarize_partition (ms : List MatchRecord) :
    (summarize ms).high_conf + (summarize ms).medium_conf
      + (summarize ms).low_conf = (summarize ms).total := by
  induction ms with
  | nil => rfl
  | cons m t ih =>
      have hb := band_indicator m.confidence
      simp only [summarize, List.countP_cons, List.length_cons,
        decide_eq_true_eq] at ih ⊢
      split_ifs at hb ⊢ <;> omega

/-- The three matches of the spec example, with confidences 0.9, 0.7
and 0.3. -/
def example_matches : List MatchRecord :=
  [⟨"https-old-a", "https-new-a", 0.9, "a"⟩,
   ⟨"https-old-b", "https-new-b", 0.7, "b"⟩,
   ⟨"https-old-c", "https-new-c", 0.3, "c"⟩]

/-- C7: summarize counts high exactly when confidence ≥ 0.8, medium
exactly when 0.6 ≤ confidence < 0.8 and low exactly when
confidence < 0.6, the three band counts partition the total, and on
confidences 0.9, 0.7, 0.3 it returns total 3 and one match per band. -/
theorem c7_summarize_bands (ms : List MatchRecord) :
    (summarize ms).total = ms.length ∧
    (summarize ms).high_conf
      = (ms.filter (fun m => decide (m.confidence ≥ 0.8))).length ∧
    (summarize ms).medium_conf
      = (ms.filter (fun m =>
          decide (0.6 ≤ m.confidence ∧ m.confidence < 0.8))).length ∧
    (summarize ms).low_conf
      = (ms.filter (fun m => decide (m.confidence < 0.6))).length ∧
    (summarize ms).high_conf + (summarize ms).medium_conf
      + (summarize ms).low_conf = (summarize ms).total ∧
    summarize example_matches = ⟨3, 1, 1, 1⟩ := by
  refine ⟨rfl, ?_, ?_, ?_, summarize_partition ms, ?_⟩
  · simp [summarize, List.countP_eq_length_filter]
  · simp [summarize, List.countP_eq_length_filter]
  · simp [summarize, List.countP_eq_length_filter]
  · rw [summarize, example_matches]
    simp only [List.countP_cons, List.countP_nil, List.length_cons,
      List.length_nil, decide_eq_true_eq]
    norm_num


/-- An inference oracle whose single response is accepted verbatim. -/
def c9_generate_example : Nat → Except String String :=
  fun _ => Except.ok "response"

/-- A parse oracle yielding one record with confidence 3 / 2, outside the
closed unit interval. -/
def c9_parse_example : String → Except String (List MatchRecord) :=
  fun _ => Except.ok [⟨"https-old-a", "https-new-a", 3 / 2, "overconfident"⟩]

/-- Counterexample to C9: match_urls performs no clamping or rejection — a
parsed record with confidence 3 / 2 is returned unchanged, so the returned
list is not confined to the closed unit interval. -/
theorem c9_counterexample :
    ∃ m ∈ (match_urls c9_generate_example c9_parse_example "m"
      (MatchSource.urlsOnly ["u"] ["v"])).all_matches,
      ¬ (m.confidence ≤ 1) := by
  refine ⟨⟨"https-old-a", "https-new-a", 3 / 2, "overconfident"⟩, ?_, by norm_num⟩
  have h : (match_urls c9_generate_example c9_parse_example "m"
      (MatchSource.urlsOnly ["u"] ["v"])).all_matches =
      [⟨"https-old-a", "https-new-a", 3 / 2, "overconfident"⟩] := rfl
  rw [h]
  exact List.mem_singleton.mpr rfl

/-- C9 amended: match_urls passes records through unvalidated, so the
returned records are exactly records of successfully parsed batch
responses; whenever every record of every successfully parsed response has
non-empty URLs and confidence in the closed unit interval, so does every
returned record. -/
theorem c9_amended_passthrough (generate : Nat → Except String String)
    (parse_matches : String → Except String (List MatchRecord))
    (model_name : String) (source : MatchSource)
    (h : ∀ i text ms, generate i = Except.ok text →
      parse_matches (clean_response text) = Except.ok ms →
      ∀ m ∈ ms, m.oldUrl ≠ "" ∧ m.newUrl ≠ "" ∧
        0 ≤ m.confidence ∧ m.confidence ≤ 1) :
    ∀ m ∈ (match_urls generate parse_matches model_name source).all_matches,
      m.oldUrl ≠ "" ∧ m.newUrl ≠ "" ∧ 0 ≤ m.confidence ∧ m.confidence ≤ 1 := by
  intro m hm
  rw [match_urls, run_batches_matches] at hm
  obtain ⟨l, hl, hml⟩ := List.mem_flatten.mp hm
  obtain ⟨i, _, rfl⟩ := List.mem_map.mp hl
  rw [batch_delivery] at hml
  cases hg : generate i with
  | error e => simp only [hg, List.not_mem_nil] at hml
  | ok text =>
      simp only [hg] at hml
      cases hp : parse_matches (clean_response text) with
      | error e => simp only [hp, List.not_mem_nil] at hml
      | ok ms =>
          simp only [hp] at hml
          exact h i text ms hg hp m hml

/-- A parse oracle yielding one well-formed record. -/
def c9_parse_good_example : String → Except String (List MatchRecord) :=
  fun _ => Except.ok [⟨"https-old-a", "https-new-a", 1 / 2, "good"⟩]

/-- Witness for the amended C9 at oracles whose single parsed record is
well formed. -/
theorem c9_amended_witness :
    ("https-old-a" : String) ≠ "" ∧ ("https-new-a" : String) ≠ "" ∧
    (0 : ℚ) ≤ 1 / 2 ∧ (1 / 2 : ℚ) ≤ 1 := by
  have happ := c9_amended_passthrough c9_generate_example c9_parse_good_example
    "m" (MatchSource.urlsOnly ["u"] ["v"])
    (by
      intro i text ms hg hp m hm
      simp only [c9_parse_good_example, Except.ok.injEq] at hp
      subst hp
      simp only [List.mem_singleton] at hm
      subst hm
      refine ⟨by simp, by simp, by norm_num, by norm_num⟩)
    ⟨"https-old-a", "https-new-a", 1 / 2, "good"⟩
    (by
      have h : (match_urls c9_generate_example c9_parse_good_example "m"
          (MatchSource.urlsOnly ["u"] ["v"])).all_matches =
          [⟨"https-old-a", "https-new-a", 1 / 2, "good"⟩] := rfl
      rw [h]
      exact List.mem_singleton.mpr rfl)
  exact happ

end RedirectMapper
